import Mathlib

/-!
Verification of the duplex real-time onboarding relay
(`src/api/routes/onboarding_realtime.py`) and its session registry
(`src/services/realtime_client.py`).

The embedding is shallow: Python JSON values become the inductive `Json`
(numbers as exact rationals; the repository never performs float
arithmetic on them), Python dictionaries become association lists, and
Python exceptions become explicit `PyErr` results.  `json.loads` is
library code, so functions that call it take the decoder as an explicit
parameter `loads : String → Except PyErr Json`; theorems constrain only
the decoder's result on the relevant input.
-/

/-- A parsed JSON value, as produced by Python's `json.loads`. -/
inductive Json where
  | null
  | bool (b : Bool)
  | num (q : ℚ)
  | str (s : String)
  | arr (elems : List Json)
  | obj (fields : List (String × Json))

/-- Python exceptions that the relay code can raise or catch. -/
inductive PyErr where
  | jsonDecodeError
  | attributeError
  | typeError
deriving DecidableEq

/-- Python `x == "lit"` for a JSON value `x`: true only when `x` is that
string (comparing a non-string to a string yields `False` in Python). -/
def jsonStrEq (j : Json) (s : String) : Bool :=
  match j with
  | Json.str t => t == s
  | _ => false

/-- Python `d.get(k)` on a value `d`: returns `None` (here `Json.null`)
for a missing key, raises `AttributeError` when `d` is not a dict. -/
def pyGet (j : Json) (k : String) : Except PyErr Json :=
  match j with
  | Json.obj kvs => Except.ok ((kvs.lookup k).getD Json.null)
  | _ => Except.error PyErr.attributeError

/-- Python `d.get(k, default)`; raises `AttributeError` when `d` is not a
dict. -/
def pyGetD (j : Json) (k : String) (d : Json) : Except PyErr Json :=
  match j with
  | Json.obj kvs => Except.ok ((kvs.lookup k).getD d)
  | _ => Except.error PyErr.attributeError

/-- Lookup with default on the fields of a decoded JSON object. -/
def objGetD (kvs : List (String × Json)) (k : String) (d : Json) : Json :=
  (kvs.lookup k).getD d

/-- The keys of a JSON object (empty for non-objects). -/
def objKeys (j : Json) : List String :=
  match j with
  | Json.obj kvs => kvs.map (fun p => p.1)
  | _ => []

/-- Whether a JSON value is hashable as a Python dict key: containers
(`list`/`dict`) are unhashable, everything else here is hashable. -/
def pyHashable (j : Json) : Bool :=
  match j with
  | Json.arr _ => false
  | Json.obj _ => false
  | _ => true

/-- Equality of flat (non-container) JSON values, used for dict keys.
Keys reaching the profile dict are always hashable, hence flat: a
container key raises `TypeError` before any lookup happens. -/
def Json.flatEq : Json → Json → Bool
  | Json.null, Json.null => true
  | Json.bool a, Json.bool b => a == b
  | Json.num a, Json.num b => a == b
  | Json.str a, Json.str b => a == b
  | _, _ => false

/-- Insert-or-overwrite on an association list with JSON keys, the
effect of Python's `d[k] = v` once `k` is known hashable. -/
def setAssoc : List (Json × Json) → Json → Json → List (Json × Json)
  | [], k, v => [(k, v)]
  | (k', v') :: rest, k, v =>
    if Json.flatEq k' k then (k', v) :: rest else (k', v') :: setAssoc rest k v

/-- Lookup on an association list with JSON keys. -/
def lookupFlat (d : List (Json × Json)) (k : Json) : Option Json :=
  (d.find? (fun p => Json.flatEq p.1 k)).map (fun p => p.2)

/-- Python `d[k] = v`: raises `TypeError` on an unhashable key, else
overwrites (last write wins). -/
def pySetItem (d : List (Json × Json)) (k v : Json) :
    Except PyErr (List (Json × Json)) :=
  if pyHashable k then Except.ok (setAssoc d k v) else Except.error PyErr.typeError

/-- Python `json.loads` applied to a value that may not be a string:
a non-string argument raises `TypeError` (not `JSONDecodeError`). -/
def loadsJ (loads : String → Except PyErr Json) (j : Json) : Except PyErr Json :=
  match j with
  | Json.str s => loads s
  | _ => Except.error PyErr.typeError

/-- The per-session accumulated state `current_onboarding_update` of
`onboarding_realtime`.  Status fields hold whatever JSON value the tool
arguments supplied (the code stores `args.get(...)` results untyped). -/
structure OnboardingState where
  prefill_fields : List (Json × Json)
  highlight_fields : Json
  suggested_options : Json
  page_completed : Json
  missing_required_fields : Json

/-- The initial `current_onboarding_update` dict. -/
def initial_onboarding_update : OnboardingState :=
  { prefill_fields := []
    highlight_fields := Json.arr []
    suggested_options := Json.arr []
    page_completed := Json.bool false
    missing_required_fields := Json.arr [] }

/-- A message sent to the client websocket by the upstream→client loop. -/
inductive ClientMsg where
  | forwarded (event : Json)
  | onboardingUpdate (snapshot : OnboardingState)
  | onboardingComplete (final_summary : Json)

/-- The `conversation.item.create` acknowledgement sent back upstream
after a tool call, referencing the call's `call_id`. -/
def tool_ack_event (call_id : Json) : Json :=
  Json.obj [("type", Json.str "conversation.item.create"),
            ("item", Json.obj [("type", Json.str "function_call_output"),
                               ("call_id", call_id),
                               ("output", Json.str "\x7b\"status\": \"success\"\x7d")])]

/-- The Structured State Accumulator: dispatch of a decoded tool call by
name, mirroring the `update_profile` / `update_onboarding_status`
branches of `server_to_client`.  Unknown names change nothing. -/
def dispatch (st : OnboardingState) (func_name args : Json) :
    Except PyErr OnboardingState :=
  if jsonStrEq func_name "update_profile" then do
    let field ← pyGet args "field_name"
    let value ← pyGet args "value"
    let pf ← pySetItem st.prefill_fields field value
    Except.ok { st with prefill_fields := pf }
  else if jsonStrEq func_name "update_onboarding_status" then do
    let pc ← pyGetD args "page_completed" (Json.bool false)
    let hf ← pyGetD args "highlight_fields" (Json.arr [])
    let mrf ← pyGetD args "missing_required_fields" (Json.arr [])
    let so ← pyGetD args "suggested_options" (Json.arr [])
    Except.ok { st with page_completed := pc, highlight_fields := hf,
                        missing_required_fields := mrf, suggested_options := so }
  else
    Except.ok st

/-- The body handling one `function_call` item: decode the arguments,
dispatch, then send the `onboarding.update` snapshot and, when the
session is still registered, the upstream acknowledgement.  Only
`json.JSONDecodeError` is caught (event skipped); any other error is
returned to the caller together with whatever was already sent. -/
def handle_function_call (loads : String → Except PyErr Json)
    (registered : Bool) (st : OnboardingState) (item : Json) :
    OnboardingState × List ClientMsg × List Json × Option PyErr :=
  match pyGet item "call_id" with
  | Except.error e => (st, [], [], some e)
  | Except.ok call_id =>
  match pyGet item "name" with
  | Except.error e => (st, [], [], some e)
  | Except.ok func_name =>
  match pyGetD item "arguments" (Json.str "\x7b\x7d") with
  | Except.error e => (st, [], [], some e)
  | Except.ok args_val =>
  match loadsJ loads args_val with
  | Except.error PyErr.jsonDecodeError => (st, [], [], none)
  | Except.error e => (st, [], [], some e)
  | Except.ok args =>
  match dispatch st func_name args with
  | Except.error e => (st, [], [], some e)
  | Except.ok st' =>
    (st', [ClientMsg.onboardingUpdate st'],
     if registered then [tool_ack_event call_id] else [], none)

/-- The lowercase marker phrase of the Completion Detector. -/
def completion_marker : String := "welcome aboard kratorai"

/-- Substring occurrence on character lists (Python's `in` on `str`). -/
def containsSeq (pat : List Char) : List Char → Bool
  | [] => pat.isEmpty
  | c :: rest => pat.isPrefixOf (c :: rest) || containsSeq pat rest

/-- Case-insensitive check: `marker in transcript.lower()`. -/
def contains_completion_marker (transcript : String) : Bool :=
  containsSeq completion_marker.data (transcript.map Char.toLower).data

/-- The completion check on one event: read `transcript` (default `""`),
lowercase it (`AttributeError` on a non-string), and emit
`onboarding.complete` with the full transcript on a marker match. -/
def handle_transcript (event : Json) : List ClientMsg × Option PyErr :=
  match pyGetD event "transcript" (Json.str "") with
  | Except.error e => ([], some e)
  | Except.ok tr =>
    match tr with
    | Json.str s =>
      if contains_completion_marker s then
        ([ClientMsg.onboardingComplete (Json.str s)], none)
      else ([], none)
    | _ => ([], some PyErr.attributeError)

/-- One iteration of the upstream→client loop body of
`onboarding_realtime.server_to_client`: forward the event verbatim,
then run the tool-call branch and the completion branch.  Returns the
new state, the client messages in send order, the upstream messages,
and the exception (if any) escaping the iteration. -/
def server_to_client_step (loads : String → Except PyErr Json)
    (registered : Bool) (st : OnboardingState) (event : Json) :
    OnboardingState × List ClientMsg × List Json × Option PyErr :=
  let fwd := [ClientMsg.forwarded event]
  match pyGet event "type" with
  | Except.error e => (st, fwd, [], some e)
  | Except.ok etype =>
    let toolPart :=
      if jsonStrEq etype "response.output_item.done" then
        match pyGetD event "item" (Json.obj []) with
        | Except.error e => (st, [], [], some e)
        | Except.ok item =>
          match pyGet item "type" with
          | Except.error e => (st, [], [], some e)
          | Except.ok itype =>
            if jsonStrEq itype "function_call" then
              handle_function_call loads registered st item
            else (st, [], [], none)
      else (st, [], [], none)
    match toolPart with
    | (st1, cm1, um1, some e) => (st1, fwd ++ cm1, um1, some e)
    | (st1, cm1, um1, none) =>
      if jsonStrEq etype "response.audio_transcript.done" then
        match handle_transcript event with
        | (cm2, err2) => (st1, fwd ++ cm1 ++ cm2, um1, err2)
      else (st1, fwd ++ cm1, um1, none)

/-- The upstream→client loop over a finite stream of decoded events.
An uncaught exception is absorbed by the loop's outer
`except Exception` handler, ending the loop: messages already sent are
kept, later events are never processed. -/
def server_to_client_loop (loads : String → Except PyErr Json)
    (registered : Bool) :
    OnboardingState → List Json → OnboardingState × List ClientMsg × List Json
  | st, [] => (st, [], [])
  | st, e :: rest =>
    match server_to_client_step loads registered st e with
    | (st', cm, um, some _) => (st', cm, um)
    | (st', cm, um, none) =>
      match server_to_client_loop loads registered st' rest with
      | (st'', cm', um') => (st'', cm ++ cm', um ++ um')

/-- A `response.output_item.done` event carrying a completed function
call, as produced by the upstream backend. -/
def tool_call_event (call_id func_name : Json) (argsStr : String) : Json :=
  Json.obj [("type", Json.str "response.output_item.done"),
            ("item", Json.obj [("type", Json.str "function_call"),
                               ("call_id", call_id),
                               ("name", func_name),
                               ("arguments", Json.str argsStr)])]

/-- A finalized-transcript event. -/
def transcript_done_event (transcript : Json) : Json :=
  Json.obj [("type", Json.str "response.audio_transcript.done"),
            ("transcript", transcript)]

/-!  Session Registry (`src/services/realtime_client.py`). -/

/-- State of an upstream websocket connection handle. -/
inductive ConnState where
  | live
  | broken
  | closed
deriving DecidableEq

/-- The `websockets` library's `close()` is idempotent and returns
normally in every connection state, including an already-broken or
already-closed connection; the `except` branch of `close_session` is
therefore never taken. -/
def ws_close_raises (_ : ConnState) : Bool := false

/-- Remove a session id from the registry (Python `del` on the dict). -/
def removeSession (sessions : List (String × ConnState)) (sid : String) :
    List (String × ConnState) :=
  sessions.filter (fun p => p.1 != sid)

/-- Observable outcome of one `close_session` call. -/
structure CloseResult where
  sessions : List (String × ConnState)
  removals : Nat
  conn_close_called : Bool
  raised : Bool
deriving DecidableEq

/-- `RealtimeClient.close_session`: a no-op for an unknown id; otherwise
`await ws.close()` then `del self.sessions[session_id]`, with any
exception caught and logged. -/
def close_session (sessions : List (String × ConnState)) (sid : String) :
    CloseResult :=
  match sessions.lookup sid with
  | none => ⟨sessions, 0, false, false⟩
  | some conn =>
    if ws_close_raises conn then ⟨sessions, 0, true, false⟩
    else ⟨removeSession sessions sid, 1, true, false⟩

/-- Observable outcome of one fire-and-forget send helper. -/
structure SendResult where
  sent : List Json
  raised : Bool

/-- `RealtimeClient.send_audio_chunk`: silently returns for an unknown
id; a send failure on a live connection is caught and logged. -/
def send_audio_chunk (sessions : List (String × ConnState)) (sid : String)
    (audio_base64 : String) (send_fails : Bool) : SendResult :=
  match sessions.lookup sid with
  | none => ⟨[], false⟩
  | some _ =>
    if send_fails then ⟨[], false⟩
    else ⟨[Json.obj [("type", Json.str "input_audio_buffer.append"),
                     ("audio", Json.str audio_base64)]], false⟩

/-- `RealtimeClient.commit_audio`. -/
def commit_audio (sessions : List (String × ConnState)) (sid : String)
    (send_fails : Bool) : SendResult :=
  match sessions.lookup sid with
  | none => ⟨[], false⟩
  | some _ =>
    if send_fails then ⟨[], false⟩
    else ⟨[Json.obj [("type", Json.str "input_audio_buffer.commit")]], false⟩

/-- `RealtimeClient.create_response`. -/
def create_response (sessions : List (String × ConnState)) (sid : String)
    (send_fails : Bool) : SendResult :=
  match sessions.lookup sid with
  | none => ⟨[], false⟩
  | some _ =>
    if send_fails then ⟨[], false⟩
    else ⟨[Json.obj [("type", Json.str "response.create")]], false⟩

/-- `RealtimeClient.listen` over a finite stream of wire messages:
yields nothing for an unknown id, otherwise decodes each message and
skips invalid JSON.  (Named `listen_events` here because Mathlib
already has a `listen`.) -/
def listen_events (loads : String → Except PyErr Json)
    (sessions : List (String × ConnState)) (sid : String)
    (wire : List String) : List Json :=
  match sessions.lookup sid with
  | none => []
  | some _ =>
    wire.filterMap (fun m =>
      match loads m with
      | Except.ok e => some e
      | Except.error _ => none)

/-- The declared parameters of `RealtimeClient.create_session`
(`self` aside): there is no `tools` parameter. -/
def create_session_params : List String :=
  ["session_id", "instructions", "voice", "temperature"]

/-- The keyword arguments `onboarding_realtime` passes to
`create_session`, including `tools`. -/
def onboarding_call_kwargs : List String :=
  ["session_id", "instructions", "voice", "temperature", "tools"]

/-- Python keyword-call check: a keyword argument naming no declared
parameter makes the call raise `TypeError` before the body runs. -/
def kwargs_accepted (params kwargs : List String) : Bool :=
  kwargs.all (fun k => params.contains k)

/-- The `session.update` configuration message `create_session` sends
over the newly opened upstream connection. -/
def session_config (instructions voice : String) (temperature : ℚ) : Json :=
  Json.obj [("type", Json.str "session.update"),
            ("session", Json.obj [
               ("modalities", Json.arr [Json.str "text", Json.str "audio"]),
               ("instructions", Json.str instructions),
               ("voice", Json.str voice),
               ("input_audio_format", Json.str "pcm16"),
               ("output_audio_format", Json.str "pcm16"),
               ("input_audio_transcription",
                  Json.obj [("model", Json.str "whisper-1")]),
               ("turn_detection", Json.obj [
                  ("type", Json.str "server_vad"),
                  ("threshold", Json.num (1/2)),
                  ("prefix_padding_ms", Json.num 300),
                  ("silence_duration_ms", Json.num 500)]),
               ("temperature", Json.num temperature)])]

/-- The inner `session` object of the configuration message. -/
def session_config_session (instructions voice : String) (temperature : ℚ) :
    Json :=
  match pyGet (session_config instructions voice temperature) "session" with
  | Except.ok s => s
  | Except.error _ => Json.null

/-!  Duplex relay join (`onboarding_realtime`, lines 229 and 236-241). -/

/-- Completion state of the two relay tasks passed to `asyncio.gather`. -/
structure RelayTasks where
  client_to_server_done : Bool
  server_to_client_done : Bool
deriving DecidableEq

/-- `await asyncio.gather(client_to_server(), server_to_client())`
returns only when both child tasks have completed.  Both loops catch
`WebSocketDisconnect` and `Exception` internally, so each child always
completes normally rather than raising into `gather`. -/
def gather_done (r : RelayTasks) : Bool :=
  r.client_to_server_done && r.server_to_client_done

/-- `asyncio.gather` issues no cancellation to a sibling task when a
child completes normally. -/
def sibling_cancelled_on_exit (_ : RelayTasks) : Bool := false

/-- Teardown of the endpoint: the `finally` block runs
`close_session(session_id)` exactly once, only after `gather` returns. -/
def relay_teardown (sessions : List (String × ConnState)) (sid : String)
    (r : RelayTasks) : Option CloseResult :=
  if gather_done r then some (close_session sessions sid) else none

/-!  Helper lemmas. -/

theorem flatEq_refl_of_hashable (k : Json) (h : pyHashable k = true) :
    Json.flatEq k k = true := by
  cases k <;> simp_all [pyHashable, Json.flatEq]

theorem lookupFlat_setAssoc (d : List (Json × Json)) (k v : Json)
    (hk : Json.flatEq k k = true) :
    lookupFlat (setAssoc d k v) k = some v := by
  induction d with
  | nil => simp [setAssoc, lookupFlat, List.find?, hk]
  | cons p rest ih =>
    by_cases h : Json.flatEq p.1 k = true
    · simp [setAssoc, h, lookupFlat, List.find?]
    · simp only [setAssoc, h, if_false, Bool.false_eq_true, ite_false]
      simpa [lookupFlat, List.find?, h] using ih

/-- C5: a status-update tool call wholesale-replaces all four status
fields of the accumulated state (omitted keys default to `false` or the
empty list), leaving `prefill_fields` untouched; after two status
updates the state holds exactly the values of the second arguments
object, not a union. -/
theorem status_update_wholesale_replace (st : OnboardingState)
    (kvs kvs1 kvs2 : List (String × Json)) :
    dispatch st (Json.str "update_onboarding_status") (Json.obj kvs)
      = Except.ok { st with
          page_completed := objGetD kvs "page_completed" (Json.bool false),
          highlight_fields := objGetD kvs "highlight_fields" (Json.arr []),
          missing_required_fields :=
            objGetD kvs "missing_required_fields" (Json.arr []),
          suggested_options := objGetD kvs "suggested_options" (Json.arr []) } ∧
    (dispatch st (Json.str "update_onboarding_status") (Json.obj kvs1) >>=
        fun s1 => dispatch s1 (Json.str "update_onboarding_status") (Json.obj kvs2))
      = Except.ok { st with
          page_completed := objGetD kvs2 "page_completed" (Json.bool false),
          highlight_fields := objGetD kvs2 "highlight_fields" (Json.arr []),
          missing_required_fields :=
            objGetD kvs2 "missing_required_fields" (Json.arr []),
          suggested_options := objGetD kvs2 "suggested_options" (Json.arr []) } := by
  constructor <;>
    simp [dispatch, jsonStrEq, pyGetD, objGetD, Except.bind, bind]

/-- C6: two field-update tool calls with the same (hashable) field name
leave `prefill_fields` mapping that name to exactly the second value. -/
theorem field_update_last_write_wins (st : OnboardingState) (k v1 v2 : Json)
    (hk : pyHashable k = true) :
    ∃ st2 : OnboardingState,
      (dispatch st (Json.str "update_profile")
          (Json.obj [("field_name", k), ("value", v1)]) >>= fun s1 =>
        dispatch s1 (Json.str "update_profile")
          (Json.obj [("field_name", k), ("value", v2)]))
        = Except.ok st2 ∧
      lookupFlat st2.prefill_fields k = some v2 := by
  refine ⟨{ st with prefill_fields := setAssoc (setAssoc st.prefill_fields k v1) k v2 }, ?_, ?_⟩
  · simp [dispatch, jsonStrEq, pyGet, pySetItem, hk, List.lookup,
          Except.bind, bind]
  · exact lookupFlat_setAssoc _ _ _ (flatEq_refl_of_hashable k hk)

/-- Witness for C6 at concrete inputs. -/
theorem field_update_last_write_wins_witness :
    ∃ st2 : OnboardingState,
      (dispatch initial_onboarding_update (Json.str "update_profile")
          (Json.obj [("field_name", Json.str "company_name"),
                     ("value", Json.str "Krator")]) >>= fun s1 =>
        dispatch s1 (Json.str "update_profile")
          (Json.obj [("field_name", Json.str "company_name"),
                     ("value", Json.str "KratorAI")]))
        = Except.ok st2 ∧
      lookupFlat st2.prefill_fields (Json.str "company_name")
        = some (Json.str "KratorAI") :=
  field_update_last_write_wins initial_onboarding_update
    (Json.str "company_name") (Json.str "Krator") (Json.str "KratorAI") (by rfl)

/-- C8: on a finalized-transcript event the relay emits
`onboarding.complete` carrying the full transcript as `final_summary`
exactly when the transcript contains the marker phrase
(case-insensitive substring); the event never raises, never changes the
state, and the loop keeps processing later events either way. -/
theorem completion_marker_advisory (loads : String → Except PyErr Json)
    (registered : Bool) (st : OnboardingState) (s : String) (rest : List Json) :
    server_to_client_step loads registered st (transcript_done_event (Json.str s))
      = (st,
         ClientMsg.forwarded (transcript_done_event (Json.str s)) ::
           (if contains_completion_marker s then
              [ClientMsg.onboardingComplete (Json.str s)] else []),
         [], none) ∧
    server_to_client_loop loads registered st
        (transcript_done_event (Json.str s) :: rest)
      = ((server_to_client_loop loads registered st rest).1,
         ClientMsg.forwarded (transcript_done_event (Json.str s)) ::
           ((if contains_completion_marker s then
              [ClientMsg.onboardingComplete (Json.str s)] else []) ++
            (server_to_client_loop loads registered st rest).2.1),
         (server_to_client_loop loads registered st rest).2.2) := by
  have hstep : server_to_client_step loads registered st
      (transcript_done_event (Json.str s))
      = (st,
         ClientMsg.forwarded (transcript_done_event (Json.str s)) ::
           (if contains_completion_marker s then
              [ClientMsg.onboardingComplete (Json.str s)] else []),
         [], none) := by
    by_cases hm : contains_completion_marker s <;>
      simp [server_to_client_step, transcript_done_event, pyGet, pyGetD,
            jsonStrEq, handle_transcript, List.lookup, hm]
  refine ⟨hstep, ?_⟩
  rw [server_to_client_loop, hstep]
  cases h : server_to_client_loop loads registered st rest with
  | mk st'' r2 =>
    cases r2 with
    | mk cm' um' => by_cases hm : contains_completion_marker s <;> simp [hm, h]

/-- C7: a recognized tool-call event whose arguments decode and whose
dispatch succeeds is first forwarded verbatim, then yields exactly one
`onboarding.update` carrying the full post-mutation state, and exactly
one upstream acknowledgement referencing the event's `call_id`. -/
theorem tool_call_forward_update_ack (loads : String → Except PyErr Json)
    (st st' : OnboardingState) (call_id func_name : Json) (argsStr : String)
    (args : Json)
    (hload : loads argsStr = Except.ok args)
    (hdisp : dispatch st func_name args = Except.ok st') :
    server_to_client_step loads true st
        (tool_call_event call_id func_name argsStr)
      = (st',
         [ClientMsg.forwarded (tool_call_event call_id func_name argsStr),
          ClientMsg.onboardingUpdate st'],
         [tool_ack_event call_id], none) := by
  simp [server_to_client_step, tool_call_event, pyGet, pyGetD, jsonStrEq,
        handle_function_call, loadsJ, List.lookup, hload, hdisp]

/-- A concrete decoder for witnesses: decodes one profile-update
arguments string, rejecting everything else. -/
def loads_profile_example : String → Except PyErr Json :=
  fun s =>
    if s = "\x7b\"field_name\": \"company_name\", \"value\": \"KratorAI\"\x7d" then
      Except.ok (Json.obj [("field_name", Json.str "company_name"),
                           ("value", Json.str "KratorAI")])
    else Except.error PyErr.jsonDecodeError

/-- Witness for C7 at a concrete profile-update event. -/
theorem tool_call_forward_update_ack_witness :
    server_to_client_step loads_profile_example true initial_onboarding_update
        (tool_call_event (Json.str "call_1") (Json.str "update_profile")
          "\x7b\"field_name\": \"company_name\", \"value\": \"KratorAI\"\x7d")
      = ({ initial_onboarding_update with
            prefill_fields := [(Json.str "company_name", Json.str "KratorAI")] },
         [ClientMsg.forwarded (tool_call_event (Json.str "call_1")
            (Json.str "update_profile")
            "\x7b\"field_name\": \"company_name\", \"value\": \"KratorAI\"\x7d"),
          ClientMsg.onboardingUpdate { initial_onboarding_update with
            prefill_fields := [(Json.str "company_name", Json.str "KratorAI")] }],
         [tool_ack_event (Json.str "call_1")], none) :=
  tool_call_forward_update_ack loads_profile_example initial_onboarding_update
    { initial_onboarding_update with
        prefill_fields := [(Json.str "company_name", Json.str "KratorAI")] }
    (Json.str "call_1") (Json.str "update_profile")
    "\x7b\"field_name\": \"company_name\", \"value\": \"KratorAI\"\x7d"
    (Json.obj [("field_name", Json.str "company_name"),
               ("value", Json.str "KratorAI")])
    (by rfl) (by rfl)

/-- C9: a tool-call event with decodable arguments but an unrecognized
function name leaves the accumulated state unchanged, yet the relay
still emits the `onboarding.update` snapshot and the success
acknowledgement for that `call_id`. -/
theorem unknown_tool_name_frame (loads : String → Except PyErr Json)
    (st : OnboardingState) (call_id func_name : Json) (argsStr : String)
    (args : Json)
    (hload : loads argsStr = Except.ok args)
    (h1 : jsonStrEq func_name "update_profile" = false)
    (h2 : jsonStrEq func_name "update_onboarding_status" = false) :
    server_to_client_step loads true st
        (tool_call_event call_id func_name argsStr)
      = (st,
         [ClientMsg.forwarded (tool_call_event call_id func_name argsStr),
          ClientMsg.onboardingUpdate st],
         [tool_ack_event call_id], none) := by
  have ha : jsonStrEq (Json.str "response.output_item.done")
      "response.output_item.done" = true := by decide
  have hb : jsonStrEq (Json.str "response.output_item.done")
      "response.audio_transcript.done" = false := by decide
  have hc : jsonStrEq (Json.str "function_call") "function_call" = true := by
    decide
  simp [server_to_client_step, tool_call_event, pyGet, pyGetD,
        handle_function_call, loadsJ, dispatch, List.lookup, hload,
        h1, h2, ha, hb, hc]

/-- Witness for C9: a `noop_tool` call leaves the state alone but still
produces the snapshot and the acknowledgement. -/
theorem unknown_tool_name_frame_witness :
    server_to_client_step loads_profile_example true initial_onboarding_update
        (tool_call_event (Json.str "call_2") (Json.str "noop_tool")
          "\x7b\"field_name\": \"company_name\", \"value\": \"KratorAI\"\x7d")
      = (initial_onboarding_update,
         [ClientMsg.forwarded (tool_call_event (Json.str "call_2")
            (Json.str "noop_tool")
            "\x7b\"field_name\": \"company_name\", \"value\": \"KratorAI\"\x7d"),
          ClientMsg.onboardingUpdate initial_onboarding_update],
         [tool_ack_event (Json.str "call_2")], none) :=
  unknown_tool_name_frame loads_profile_example initial_onboarding_update
    (Json.str "call_2") (Json.str "noop_tool")
    "\x7b\"field_name\": \"company_name\", \"value\": \"KratorAI\"\x7d"
    (Json.obj [("field_name", Json.str "company_name"),
               ("value", Json.str "KratorAI")])
    (by rfl) (by rfl) (by rfl)

/-- C3 (amended): a tool-call event whose arguments string fails JSON
decoding (`json.JSONDecodeError`) is skipped: no state change, no
snapshot, no acknowledgement, no exception, and the loop keeps
processing later events. -/
theorem malformed_json_args_skipped (loads : String → Except PyErr Json)
    (registered : Bool) (st : OnboardingState) (call_id func_name : Json)
    (argsStr : String) (rest : List Json)
    (hload : loads argsStr = Except.error PyErr.jsonDecodeError) :
    server_to_client_step loads registered st
        (tool_call_event call_id func_name argsStr)
      = (st, [ClientMsg.forwarded (tool_call_event call_id func_name argsStr)],
         [], none) ∧
    server_to_client_loop loads registered st
        (tool_call_event call_id func_name argsStr :: rest)
      = ((server_to_client_loop loads registered st rest).1,
         ClientMsg.forwarded (tool_call_event call_id func_name argsStr) ::
           (server_to_client_loop loads registered st rest).2.1,
         (server_to_client_loop loads registered st rest).2.2) := by
  have hstep : server_to_client_step loads registered st
      (tool_call_event call_id func_name argsStr)
      = (st, [ClientMsg.forwarded (tool_call_event call_id func_name argsStr)],
         [], none) := by
    simp [server_to_client_step, tool_call_event, pyGet, pyGetD, jsonStrEq,
          handle_function_call, loadsJ, List.lookup, hload]
  refine ⟨hstep, ?_⟩
  rw [server_to_client_loop, hstep]
  cases h : server_to_client_loop loads registered st rest with
  | mk st'' r2 =>
    cases r2 with
    | mk cm' um' => simp [h]

/-- Witness for the amended C3 at a concrete undecodable argument
string. -/
theorem malformed_json_args_skipped_witness :
    server_to_client_step loads_profile_example true initial_onboarding_update
        (tool_call_event (Json.str "call_3") (Json.str "update_profile")
          "not json at all")
      = (initial_onboarding_update,
         [ClientMsg.forwarded (tool_call_event (Json.str "call_3")
            (Json.str "update_profile") "not json at all")],
         [], none) ∧
    server_to_client_loop loads_profile_example true initial_onboarding_update
        [tool_call_event (Json.str "call_3") (Json.str "update_profile")
          "not json at all"]
      = ((server_to_client_loop loads_profile_example true
            initial_onboarding_update []).1,
         ClientMsg.forwarded (tool_call_event (Json.str "call_3")
            (Json.str "update_profile") "not json at all") ::
           (server_to_client_loop loads_profile_example true
              initial_onboarding_update []).2.1,
         (server_to_client_loop loads_profile_example true
            initial_onboarding_update []).2.2) :=
  malformed_json_args_skipped loads_profile_example true
    initial_onboarding_update (Json.str "call_3") (Json.str "update_profile")
    "not json at all" [] (by rfl)

/-- A concrete decoder that decodes `[1, 2]` to a JSON array and
rejects everything else. -/
def loads_array_example : String → Except PyErr Json :=
  fun s =>
    if s = "[1, 2]" then Except.ok (Json.arr [Json.num 1, Json.num 2])
    else Except.error PyErr.jsonDecodeError

/-- An `update_profile` tool call whose arguments are valid JSON but
not an object: `args.get` then raises `AttributeError`. -/
def bad_shape_args_event : Json :=
  tool_call_event (Json.str "call_9") (Json.str "update_profile") "[1, 2]"

/-- Counterexample to C3 as stated: arguments that fail to parse as the
expected structured form (valid JSON, wrong shape) raise an
`AttributeError` that escapes the classifier and ends the
upstream→client loop, so a later event is neither forwarded nor
processed. -/
theorem malformed_args_not_always_skipped_cex :
    (server_to_client_step loads_array_example true initial_onboarding_update
        bad_shape_args_event).2.2.2 = some PyErr.attributeError ∧
    server_to_client_loop loads_array_example true initial_onboarding_update
        [bad_shape_args_event, transcript_done_event (Json.str "thanks")]
      = (initial_onboarding_update,
         [ClientMsg.forwarded bad_shape_args_event], []) := by
  constructor
  · rfl
  · rfl

theorem lookup_removeSession (sessions : List (String × ConnState))
    (sid : String) :
    (removeSession sessions sid).lookup sid = none := by
  induction sessions with
  | nil => rfl
  | cons p rest ih =>
    by_cases h : p.1 = sid
    · simp only [removeSession, List.filter_cons] at ih ⊢
      simp [h, ih]
    · simp only [removeSession, List.filter_cons] at ih ⊢
      simp only [h, bne_iff_ne, ne_eq, not_false_iff, if_true, ite_true]
      have hb : (sid == p.1) = false := beq_eq_false_iff_ne.mpr (Ne.symm h)
      simp [List.lookup, hb, ih]

/-- C4: for a registered session id — whatever the state of its
connection, including an already-broken one — `close_session` closes
the connection, removes the registry entry and raises nothing; a second
call is a no-op, so two calls yield exactly one registry removal and no
exception. -/
theorem close_session_idempotent (sessions : List (String × ConnState))
    (sid : String) (conn : ConnState)
    (h : sessions.lookup sid = some conn) :
    (close_session sessions sid).removals = 1 ∧
    (close_session sessions sid).conn_close_called = true ∧
    (close_session sessions sid).raised = false ∧
    (close_session sessions sid).sessions.lookup sid = none ∧
    (close_session (close_session sessions sid).sessions sid).removals = 0 ∧
    (close_session (close_session sessions sid).sessions sid).raised = false ∧
    (close_session sessions sid).removals
      + (close_session (close_session sessions sid).sessions sid).removals
      = 1 := by
  simp [close_session, h, ws_close_raises, lookup_removeSession]

/-- Witness for C4 on a registry holding one already-broken
connection. -/
theorem close_session_idempotent_witness :
    (close_session [("onb_rt_a", ConnState.broken)] "onb_rt_a").removals = 1 ∧
    (close_session [("onb_rt_a", ConnState.broken)] "onb_rt_a").conn_close_called
      = true ∧
    (close_session [("onb_rt_a", ConnState.broken)] "onb_rt_a").raised = false ∧
    (close_session [("onb_rt_a", ConnState.broken)] "onb_rt_a").sessions.lookup
      "onb_rt_a" = none ∧
    (close_session (close_session [("onb_rt_a", ConnState.broken)]
        "onb_rt_a").sessions "onb_rt_a").removals = 0 ∧
    (close_session (close_session [("onb_rt_a", ConnState.broken)]
        "onb_rt_a").sessions "onb_rt_a").raised = false ∧
    (close_session [("onb_rt_a", ConnState.broken)] "onb_rt_a").removals
      + (close_session (close_session [("onb_rt_a", ConnState.broken)]
          "onb_rt_a").sessions "onb_rt_a").removals = 1 :=
  close_session_idempotent [("onb_rt_a", ConnState.broken)] "onb_rt_a"
    ConnState.broken (by rfl)

/-- C10: for a session id absent from the registry, `send_audio_chunk`,
`commit_audio` and `create_response` return without raising and without
sending anything, and `listen` (here `listen_events`) yields no events; on a registered
session, a failing send is caught and never raised to the caller. -/
theorem absent_session_noop (loads : String → Except PyErr Json)
    (sessions sessions2 : List (String × ConnState)) (sid sid2 : String)
    (audio audio2 : String) (send_fails : Bool) (wire : List String)
    (conn2 : ConnState)
    (h : sessions.lookup sid = none)
    (h2 : sessions2.lookup sid2 = some conn2) :
    (send_audio_chunk sessions sid audio send_fails).sent = [] ∧
    (send_audio_chunk sessions sid audio send_fails).raised = false ∧
    (commit_audio sessions sid send_fails).sent = [] ∧
    (commit_audio sessions sid send_fails).raised = false ∧
    (create_response sessions sid send_fails).sent = [] ∧
    (create_response sessions sid send_fails).raised = false ∧
    listen_events loads sessions sid wire = [] ∧
    (send_audio_chunk sessions2 sid2 audio2 true).sent = [] ∧
    (send_audio_chunk sessions2 sid2 audio2 true).raised = false ∧
    (commit_audio sessions2 sid2 true).raised = false ∧
    (create_response sessions2 sid2 true).raised = false := by
  simp [send_audio_chunk, commit_audio, create_response, listen_events, h, h2]

/-- Witness for C10: an empty registry for the absent id, a singleton
registry for the failing send. -/
theorem absent_session_noop_witness :
    (send_audio_chunk [] "onb_rt_x" "UklGRg==" false).sent = [] ∧
    (send_audio_chunk [] "onb_rt_x" "UklGRg==" false).raised = false ∧
    (commit_audio [] "onb_rt_x" false).sent = [] ∧
    (commit_audio [] "onb_rt_x" false).raised = false ∧
    (create_response [] "onb_rt_x" false).sent = [] ∧
    (create_response [] "onb_rt_x" false).raised = false ∧
    listen_events loads_profile_example [] "onb_rt_x" ["\x7b\x7d"] = [] ∧
    (send_audio_chunk [("onb_rt_y", ConnState.live)] "onb_rt_y" "UklGRg=="
        true).sent = [] ∧
    (send_audio_chunk [("onb_rt_y", ConnState.live)] "onb_rt_y" "UklGRg=="
        true).raised = false ∧
    (commit_audio [("onb_rt_y", ConnState.live)] "onb_rt_y" true).raised
      = false ∧
    (create_response [("onb_rt_y", ConnState.live)] "onb_rt_y" true).raised
      = false :=
  absent_session_noop loads_profile_example [] [("onb_rt_y", ConnState.live)]
    "onb_rt_x" "onb_rt_y" "UklGRg==" "UklGRg==" false ["\x7b\x7d"]
    ConnState.live (by rfl) (by rfl)

/-- C1 (code bug): `create_session` declares no `tools` parameter, so
the onboarding route's keyword call carrying `tools` raises `TypeError`
before any connection is opened, and the `session.update` configuration
message never carries a tools key: its keys, outer and inner, are
exactly the ones listed here. -/
theorem create_session_drops_tool_schemas :
    kwargs_accepted create_session_params onboarding_call_kwargs = false ∧
    ∀ (instructions voice : String) (temperature : ℚ),
      objKeys (session_config instructions voice temperature)
        = ["type", "session"] ∧
      objKeys (session_config_session instructions voice temperature)
        = ["modalities", "instructions", "voice", "input_audio_format",
           "output_audio_format", "input_audio_transcription",
           "turn_detection", "temperature"] := by
  refine ⟨by decide, ?_⟩
  intro instructions voice temperature
  constructor <;>
    simp [session_config, session_config_session, objKeys, pyGet, List.lookup]

/-- C2 counterexample: with the client→upstream loop finished and the
upstream→client loop still running, `gather` has not returned, no
teardown has happened, and no cancellation was issued to the sibling
loop. -/
theorem relay_single_loop_exit_cex :
    gather_done ⟨true, false⟩ = false ∧
    relay_teardown [("onb_rt_z", ConnState.live)] "onb_rt_z" ⟨true, false⟩
      = none ∧
    sibling_cancelled_on_exit ⟨true, false⟩ = false := by
  decide

/-- C2 (amended): the two loops are joined by `asyncio.gather`; one
loop exiting (either one) neither cancels the sibling nor triggers
teardown, and teardown (`close_session`) runs exactly once, only after
both loops have exited. -/
theorem relay_gather_join (sessions : List (String × ConnState))
    (sid : String) (b : Bool) :
    relay_teardown sessions sid ⟨b, !b⟩ = none ∧
    relay_teardown sessions sid ⟨false, false⟩ = none ∧
    relay_teardown sessions sid ⟨true, true⟩
      = some (close_session sessions sid) ∧
    sibling_cancelled_on_exit ⟨b, !b⟩ = false := by
  cases b <;>
    simp [relay_teardown, gather_done, sibling_cancelled_on_exit]
